import Mathlib

/-!
Verification development for the `glazed` service: a shallow embedding of
its resolution engine, remote-access client and node schema, together with
theorems settling the specification's claims about them.

Sources embedded:
 - `src/clients.rs` : `TiledClient::request` status classification,
   `TiledClient::search`, `TiledClient::table_full`, `ClientError`.
 - `src/model/node.rs` : `Response`, `Root`, `DataOption`, `Data`,
   `NodeAttributes`, `Attributes`, `DataSource`, `Asset`, `Links`, and the
   serde-derived JSON deserialisation behaviour of these types.
 - `src/model.rs` : `InstrumentSession::runs`, `Run::data`,
   `ArrayData`, `TableData::inner_data`, `Asset::download`.

Remote calls are modelled by abstract service functions passed as
parameters; each operation that issues remote calls also returns the list
of `Request` values it sent, so that header-forwarding and query-shape
properties are statable.
-/

/-- A JSON value, as produced by `serde_json`.  Numbers are modelled as
integers (no claim depends on float payloads). -/
inductive Json where
  | null : Json
  | bool : Bool → Json
  | num : Int → Json
  | str : String → Json
  | arr : List Json → Json
  | obj : List (String × Json) → Json

namespace node

/-- `node::Links` from `src/model/node.rs` (the `self` field is renamed to
`self_field` exactly as in the source). -/
structure Links where
  self_field : String
  documentation : Option String
  first : Option String
  last : Option String
  next : Option String
  prev : Option String
  search : Option String
  full : Option String
  block : Option String
  partition : Option String

/-- `node::Spec` from `src/model/node.rs`. -/
structure Spec where
  name : String
  version : Option String

/-- `node::Sorting` from `src/model/node.rs`. -/
structure Sorting where
  key : String
  direction : Int

/-- `node::Management` from `src/model/node.rs`. -/
inductive Management where
  | external
  | immutable
  | locked
  | writable

/-- `node::Asset` from `src/model/node.rs`. -/
structure Asset where
  data_uri : String
  is_directory : Bool
  parameter : Option String
  num : Option Int
  id : Option Int

/-- `node::DataSource<S>` from `src/model/node.rs`.  `parameters` is a
JSON object (`HashMap<String, Value>` in the source). -/
structure DataSource (S : Type) where
  structure' : S
  id : Option Nat
  mimetype : Option String
  parameters : Json
  assets : List Asset
  management : Management

/-- `node::Attributes<Meta, S>` from `src/model/node.rs` (the `structure`
field is spelled `structure'` because `structure` is a Lean keyword). -/
structure Attributes (Meta S : Type) where
  ancestors : List String
  specs : List Spec
  metadata : Meta
  structure' : S
  access_blob : Json
  sorting : Option (List Sorting)
  data_sources : Option (List (DataSource S))

/-- Modelled from the spec: `table.rs` is not under `src/`.  The only field
of `TableStructure` the sources use is `columns` (`src/model.rs` reads
`self.attrs.structure.columns` as a list of strings). -/
structure TableStructure where
  columns : List String

/-- `node::NodeAttributes` from `src/model/node.rs`: a closed tagged union
over the `structure_family` discriminator with exactly three variants.
Modelled from the spec: `container.rs` and `array.rs` are not under `src/`,
so `ContainerMetadata`, `ContainerStructure` and `ArrayStructure` are kept
as opaque JSON payloads (the spec treats them as per-format payload shapes
the core does not transform); metadata of `array`/`table` nodes is a JSON
object (`HashMap<String, Value>` in the source). -/
inductive NodeAttributes where
  | container : Attributes Json Json → NodeAttributes
  | array : Attributes Json Json → NodeAttributes
  | table : Attributes Json TableStructure → NodeAttributes

/-- `node::Data` from `src/model/node.rs`. -/
structure Data where
  id : String
  attributes : NodeAttributes
  links : Links
  meta : Json

/-- `node::DataOption` from `src/model/node.rs`: one entry of a collection
response, either a parsed node or the raw unparsable JSON value. -/
inductive DataOption where
  | data : Data → DataOption
  | error : Json → DataOption

/-- `DataOption::as_data` from `src/model/node.rs`. -/
def DataOption.as_data : DataOption → Option Data
  | .data d => some d
  | .error _ => none

/-- `DataOption::into_data` from `src/model/node.rs`. -/
def DataOption.into_data : DataOption → Option Data
  | .data d => some d
  | .error _ => none

/-- `node::Response<D>` from `src/model/node.rs`. -/
structure Response (D : Type) where
  data : D
  error : Json
  links : Option Links
  meta : Json

/-- `node::Root = Response<Vec<DataOption>>` from `src/model/node.rs`. -/
def Root := Response (List DataOption)

/-- `node::Metadata = Response<Data>` from `src/model/node.rs`. -/
def Metadata := Response Data

/-- `Root::data` from `src/model/node.rs`: iterate the entries, keeping
only those that parsed as nodes (`flat_map(DataOption::as_data)`).  Named
`data'` because `data` is the structure field. -/
def Root.data' (r : Root) : List Data :=
  (node.Response.data r).filterMap DataOption.as_data

/-- `Root::into_data` from `src/model/node.rs`:
`self.data.into_iter().flat_map(DataOption::into_data)`. -/
def Root.into_data (r : Root) : List Data :=
  (node.Response.data r).filterMap DataOption.into_data

end node

/-- A header map: an ordered list of (name, value) pairs. -/
def HeaderMap := List (String × String)

/-- `ClientError` from `src/clients.rs`; the foreign payloads
(`url::ParseError`, `reqwest::Error`, `serde_json::Error`) are modelled as
strings. -/
inductive ClientError where
  | invalidPath : String → ClientError
  | serverError : String → ClientError
  | invalidResponse : String → String → ClientError
  | tiledInternal : Nat → String → ClientError
  | tiledRequest : Nat → String → ClientError

/-- The status-classification step of `TiledClient::request` in
`src/clients.rs` (lines 52-58): after the body has been read as text, the
status is matched against the exclusive ranges `400..500` and `500..600`,
and only otherwise is the body parsed as JSON. -/
def requestClassify {α : Type} (parse : String → Except String α)
    (status : Nat) (body : String) : Except ClientError α :=
  if 400 ≤ status ∧ status < 500 then
    .error (.tiledRequest status body)
  else if 500 ≤ status ∧ status < 600 then
    .error (.tiledInternal status body)
  else
    match parse body with
    | .ok v => .ok v
    | .error e => .error (.invalidResponse e body)

/-- A parsed HTTP request as built by `TiledClient` before being sent:
endpoint path, optional headers, optional ordered query parameters. -/
structure Request where
  endpoint : String
  headers : Option HeaderMap
  query : Option (List (String × String))

/-- An absolute URL, modelled as an opaque base (scheme + authority) plus
its ordered path segments. -/
structure Url where
  base : String
  pathSegments : List String

/-- `Url::path_segments_mut().push`: append one path segment. -/
def Url.push (u : Url) (s : String) : Url :=
  { u with pathSegments := u.pathSegments ++ [s] }

/-- The last `n` path segments of a URL, in order. -/
def Url.trailingSegments (n : Nat) (u : Url) : List String :=
  (u.pathSegments.reverse.take n).reverse

/-- Modelled from the spec: `handlers.rs` is not under `src/`.  An
`AuthHeader` wraps the opaque credential value forwarded by the serving
layer. -/
structure AuthHeader where
  value : String

/-- Modelled from the spec: `AuthHeader::as_header_map` converts the
credential to a header map attached to remote calls (the repository's
tests show it as an `Authorization` header). -/
def AuthHeader.as_header_map (a : AuthHeader) : HeaderMap :=
  [("authorization", a.value)]

/-- `HeaderMap::insert` semantics: set key `k` to `v`, replacing any
existing entry for `k`. -/
def headerInsert (m : HeaderMap) (k v : String) : HeaderMap :=
  (List.filter (fun p => p.1 != k) m) ++ [(k, v)]

/-- The request built by `TiledClient::search` in `src/clients.rs`
(line 69): endpoint `api/v1/search/{path}` with the given headers and
query parameters. -/
def searchReq (path : String) (headers : Option HeaderMap)
    (query : List (String × String)) : Request :=
  { endpoint := "api/v1/search/" ++ path, headers := headers, query := some query }

/-- The request built by `TiledClient::table_full` in `src/clients.rs`
(lines 82-103): endpoint `/api/v1/table/full/{path}`; the provided headers
(or an empty map) with `accept: application/json` inserted; and, when a
column projection is given, one `column` query parameter per column. -/
def table_fullReq (path : String) (columns : Option (List String))
    (headers : Option HeaderMap) : Request :=
  let headers' := headerInsert (headers.getD []) "accept" "application/json"
  let query := columns.map (List.map (fun col => ("column", col)))
  { endpoint := "/api/v1/table/full/" ++ path, headers := some headers', query := query }

/-- An abstract remote service answering search requests, standing for the
network side of `TiledClient::request` at type `node::Root`. -/
def SearchService := Request → Except ClientError node.Root

/-- `table::Table`: `src/model.rs` returns `table_full`'s result directly
as a `HashMap<String, Vec<Value>>` (column name to ordered values).
Modelled from the spec: `table.rs` is not under `src/`. -/
def Table := List (String × List Json)

/-- An abstract remote service answering full-table requests. -/
def TableService := Request → Except ClientError Table

/-- `model::InstrumentSession` from `src/model.rs`. -/
structure InstrumentSession where
  name : String

/-- `model::Run` from `src/model.rs`: owns its underlying node. -/
structure Run where
  data : node.Data

/-- `model::ArrayData` from `src/model.rs`: holds the owning run (a
borrowed reference in the source), the owning stream id, its own dataset
id, and the attribute block. -/
structure ArrayData where
  run : Run
  id : String
  stream : String
  attrs : node.Attributes Json Json

/-- `model::TableData` from `src/model.rs`: holds only its dataset id and
attribute block. -/
structure TableData where
  id : String
  attrs : node.Attributes Json node.TableStructure

/-- `model::RunData` from `src/model.rs`. -/
inductive RunData where
  | array : ArrayData → RunData
  | internal : TableData → RunData

/-- `model::Asset` from `src/model.rs`: a node-level asset together with
the `ArrayData` it belongs to. -/
structure Asset where
  asset : node.Asset
  data : ArrayData

/-- `Asset::download` from `src/model.rs` (lines 111-123): `None` when the
asset has no id; otherwise the configured public base address with path
segments `asset`, run id, stream id, dataset id, asset id appended — a
purely local construction (the source serialises the URL to a string; the
model returns the URL value itself). -/
def Asset.download (root : Url) (a : Asset) : Option Url :=
  match a.asset.id with
  | none => none
  | some i =>
      some (((((root.push "asset").push a.data.run.data.id).push
        a.data.stream).push a.data.id).push (toString i))

/-- `InstrumentSession::runs` from `src/model.rs` (lines 43-65): one
search at root scope with the equality filter on `start.instrument_session`
(the value wrapped in literal double quotes) and `include_data_sources`;
each well-formed entry becomes a `Run`.  Returns the result together with
the list of requests issued. -/
def InstrumentSession.runs (svc : SearchService) (auth : Option AuthHeader)
    (s : InstrumentSession) : Except ClientError (List Run) × List Request :=
  let headers := auth.map AuthHeader.as_header_map
  let req := searchReq "" headers
    [("filter[eq][condition][key]", "start.instrument_session"),
     ("filter[eq][condition][value]", "\"" ++ s.name ++ "\""),
     ("include_data_sources", "true")]
  match svc req with
  | .error e => (.error e, [req])
  | .ok root => (.ok (root.into_data.map (fun d => { data := d })), [req])

/-- The classification of one fetched dataset node inside `Run::data`
(`src/model.rs` lines 208-222): `Array` nodes become `ArrayData` (holding
the run, the stream id and the dataset id), `Table` nodes become
`TableData`, `Container` nodes are discarded. -/
def classifyDataset (run : Run) (streamId : String) (dataset : node.Data) :
    Option RunData :=
  match dataset.attributes with
  | .array attrs => some (.array { run := run, stream := streamId, id := dataset.id, attrs := attrs })
  | .table attrs => some (.internal { id := dataset.id, attrs := attrs })
  | .container _ => none

/-- The per-stream loop of `Run::data` (`src/model.rs` lines 200-223): for
each stream, search `run_id/stream_id` with `include_data_sources=true`,
classify its datasets, and accumulate across streams in order; the first
failed search aborts the whole resolution. -/
def streamLoop (svc : SearchService) (headers : Option HeaderMap) (run : Run) :
    List node.Data → Except ClientError (List RunData) × List Request
  | [] => (.ok [], [])
  | stream :: rest =>
      let req := searchReq (run.data.id ++ "/" ++ stream.id) headers
        [("include_data_sources", "true")]
      match svc req with
      | .error e => (.error e, [req])
      | .ok stream_data =>
          let ds := stream_data.into_data.filterMap (classifyDataset run stream.id)
          let rest' := streamLoop svc headers run rest
          ((rest'.1).map (fun l => ds ++ l), req :: rest'.2)

/-- `Run::data` from `src/model.rs` (lines 188-225): search the run's id
for its streams, then resolve and classify each stream's datasets.  Named
`data'` because `data` is the structure field.  Returns the result
together with the list of requests issued. -/
def Run.data' (svc : SearchService) (auth : Option AuthHeader) (run : Run) :
    Except ClientError (List RunData) × List Request :=
  let headers := auth.map AuthHeader.as_header_map
  let req := searchReq run.data.id headers [("include_data_sources", "true")]
  match svc req with
  | .error e => (.error e, [req])
  | .ok run_data =>
      let res := streamLoop svc headers run run_data.data'
      (res.1, req :: res.2)

/-- `TableData::inner_data` from `src/model.rs` (lines 148-170): join the
attribute block's ancestors with the dataset's own id by `/`, and issue a
full-table fetch with the optional column projection; the result (success
or failure) is returned unchanged.  Returns the result together with the
list of requests issued. -/
def TableData.inner_data (svc : TableService) (auth : Option AuthHeader)
    (td : TableData) (columns : Option (List String)) :
    Except ClientError Table × List Request :=
  let headers := auth.map AuthHeader.as_header_map
  let p := String.intercalate "/" (td.attrs.ancestors ++ [td.id])
  let req := table_fullReq p columns headers
  (svc req, [req])

/-- The header entries of a request (empty when no headers attached). -/
def Request.headerEntries (req : Request) : List (String × String) :=
  req.headers.getD []

/-- The request carries credential `a` as a header. -/
def Request.hasAuth (a : AuthHeader) (req : Request) : Prop :=
  ("authorization", a.value) ∈ req.headerEntries

/-- The request carries no credential header at all. -/
def Request.noAuth (req : Request) : Prop :=
  ∀ v, ("authorization", v) ∉ req.headerEntries

/-- Spec-side description (for the refinement claim about collection
iteration): "resolving the collection yields exactly the well-formed
subset, in original order" — keep each entry's node when it parsed,
drop it otherwise. -/
def specWellFormed : List node.DataOption → List node.Data
  | [] => []
  | .data d :: rest => d :: specWellFormed rest
  | .error _ :: rest => specWellFormed rest

/-- A minimal attribute block (used to build concrete nodes). -/
def exampleAttrs : node.Attributes Json Json :=
  { ancestors := [], specs := [], metadata := .null, structure' := .null,
    access_blob := .null, sorting := none, data_sources := none }

/-- A minimal links block (used to build concrete nodes). -/
def exampleLinks : node.Links :=
  { self_field := "", documentation := none, first := none, last := none,
    next := none, prev := none, search := none, full := none, block := none,
    partition := none }

/-- A concrete well-formed node. -/
def exampleNode : node.Data :=
  { id := "n1", attributes := .container exampleAttrs, links := exampleLinks,
    meta := .null }

/-- A concrete collection response mixing one well-formed node and one
malformed entry. -/
def exampleMixed : node.Root :=
  { data := [.data exampleNode, .error (.str "junk")], error := .null,
    links := none, meta := .null }

/-- A concrete always-failing body parser. -/
def badParse : String → Except String Nat := fun _ => .error "bad"

/-- A concrete run owning `exampleNode` (id `n1`). -/
def exampleRun : Run := { data := exampleNode }

/-- A concrete `ArrayData` (used to build concrete assets). -/
def exampleAD : ArrayData :=
  { run := exampleRun, id := "d1", stream := "s1", attrs := exampleAttrs }

/-- A concrete asset with a download id. -/
def asset7 : Asset :=
  { asset := { data_uri := "file:///x", is_directory := false,
               parameter := none, num := none, id := some 7 },
    data := exampleAD }

/-- A concrete asset without a download id. -/
def assetNone : Asset :=
  { asset := { data_uri := "file:///x", is_directory := false,
               parameter := none, num := none, id := none },
    data := exampleAD }

/-- A concrete public base address. -/
def rootUrl : Url := { base := "http://example.com", pathSegments := [] }

/-- A concrete table attribute block with ancestors `["a", "b"]`. -/
def exampleTableAttrs : node.Attributes Json node.TableStructure :=
  { ancestors := ["a", "b"], specs := [], metadata := .null,
    structure' := { columns := [] }, access_blob := .null, sorting := none,
    data_sources := none }

/-- A concrete `TableData` with ancestors `["a", "b"]` and own id `c`. -/
def exampleTD : TableData := { id := "c", attrs := exampleTableAttrs }

/-- A concrete always-failing table service. -/
def svcTableErr : TableService := fun _ => .error (.tiledInternal 500 "boom")

/-- A concrete stream node (id `s1`). -/
def streamNode : node.Data :=
  { id := "s1", attributes := .container exampleAttrs, links := exampleLinks,
    meta := .null }

/-- A concrete array dataset node (id `d1`). -/
def arrayNode : node.Data :=
  { id := "d1", attributes := .array exampleAttrs, links := exampleLinks,
    meta := .null }

/-- A concrete table dataset node (id `d2`). -/
def tableNode : node.Data :=
  { id := "d2", attributes := .table exampleTableAttrs, links := exampleLinks,
    meta := .null }

/-- A concrete container dataset node (id `d3`). -/
def containerNode : node.Data :=
  { id := "d3", attributes := .container exampleAttrs, links := exampleLinks,
    meta := .null }

/-- A concrete stream collection for `exampleRun`. -/
def rootStreams : node.Root :=
  { data := [.data streamNode], error := .null, links := none, meta := .null }

/-- A concrete dataset collection holding an array node, a table node, a
container node and one malformed entry. -/
def rootDatasets : node.Root :=
  { data := [.data arrayNode, .data tableNode, .data containerNode,
             .error (.str "junk")],
    error := .null, links := none, meta := .null }

/-- The `TableData` produced from `tableNode`. -/
def exampleTD2 : TableData := { id := "d2", attrs := exampleTableAttrs }

/-- A concrete search service serving `exampleRun`'s streams and datasets
(dispatch on the request's endpoint). -/
def exampleSvc : SearchService := fun req =>
  if req.endpoint = "api/v1/search/n1" then .ok rootStreams
  else if req.endpoint = "api/v1/search/n1/s1" then .ok rootDatasets
  else .error (.tiledRequest 404 "")

/-- A concrete run node with id `ra`. -/
def runNodeA : node.Data :=
  { id := "ra", attributes := .container exampleAttrs, links := exampleLinks,
    meta := .null }

/-- A concrete run node with id `rb`. -/
def runNodeB : node.Data :=
  { id := "rb", attributes := .container exampleAttrs, links := exampleLinks,
    meta := .null }

/-- A concrete run with id `ra`. -/
def runA : Run := { data := runNodeA }

/-- A concrete run with id `rb`. -/
def runB : Run := { data := runNodeB }

/-- A concrete stream node with id `sA`. -/
def streamNodeA : node.Data :=
  { id := "sA", attributes := .container exampleAttrs, links := exampleLinks,
    meta := .null }

/-- A concrete stream node with id `sB`. -/
def streamNodeB : node.Data :=
  { id := "sB", attributes := .container exampleAttrs, links := exampleLinks,
    meta := .null }

/-- A stream collection holding only `streamNodeA`. -/
def rootStreamsA : node.Root :=
  { data := [.data streamNodeA], error := .null, links := none, meta := .null }

/-- A stream collection holding only `streamNodeB`. -/
def rootStreamsB : node.Root :=
  { data := [.data streamNodeB], error := .null, links := none, meta := .null }

/-- A dataset collection holding only the table node. -/
def rootTblOnly : node.Root :=
  { data := [.data tableNode], error := .null, links := none, meta := .null }

/-- A concrete search service for run `ra` whose single stream `sA` holds
only the table node. -/
def svcA : SearchService := fun req =>
  if req.endpoint = "api/v1/search/ra" then .ok rootStreamsA
  else if req.endpoint = "api/v1/search/ra/sA" then .ok rootTblOnly
  else .error (.tiledRequest 404 "")

/-- A concrete search service for run `rb` whose single stream `sB` holds
only the table node. -/
def svcB : SearchService := fun req =>
  if req.endpoint = "api/v1/search/rb" then .ok rootStreamsB
  else if req.endpoint = "api/v1/search/rb/sB" then .ok rootTblOnly
  else .error (.tiledRequest 404 "")

namespace node

/-- Field lookup in a JSON object's field list (first match). -/
def lookupField : List (String × Json) → String → Option Json
  | [], _ => none
  | (k', v) :: rest, k => if k' = k then some v else lookupField rest k

/-- Field lookup in a JSON value (none when it is not an object). -/
def getField (j : Json) (k : String) : Option Json :=
  match j with
  | .obj fields => lookupField fields k
  | _ => none

/-- A required struct field: missing (or non-object carrier) is a parse
error, as with serde derive. -/
def reqField (j : Json) (k : String) : Except String Json :=
  match getField j k with
  | some v => .ok v
  | none => .error ("missing field " ++ k)

/-- Deserialise a JSON string. -/
def parseString : Json → Except String String
  | .str s => .ok s
  | _ => .error "expected string"

/-- Deserialise a JSON boolean. -/
def parseBool : Json → Except String Bool
  | .bool b => .ok b
  | _ => .error "expected bool"

/-- Deserialise a signed integer (`i64`). -/
def parseInt : Json → Except String Int
  | .num n => .ok n
  | _ => .error "expected number"

/-- Deserialise an unsigned integer (`u64`). -/
def parseNat : Json → Except String Nat
  | .num n => if 0 ≤ n then .ok n.toNat else .error "expected unsigned"
  | _ => .error "expected number"

/-- Deserialise a JSON object kept as raw JSON (`HashMap<String, Value>`
in the source: any object is accepted, anything else refused). -/
def parseObjValue : Json → Except String Json
  | .obj fs => .ok (.obj fs)
  | _ => .error "expected object"

/-- Deserialise `serde_json::Value`: any JSON is accepted. -/
def parseAny : Json → Except String Json := fun j => .ok j

/-- serde's treatment of an `Option<T>` field: missing or `null` is
`None`, otherwise the inner deserialiser must succeed. -/
def parseOpt {α : Type} (p : Json → Except String α) :
    Option Json → Except String (Option α)
  | none => .ok none
  | some .null => .ok none
  | some j =>
      match p j with
      | .ok v => .ok (some v)
      | .error e => .error e

/-- Deserialise each element of a list in order; the first failure fails
the whole list. -/
def parseList {α : Type} (p : Json → Except String α) :
    List Json → Except String (List α)
  | [] => .ok []
  | x :: xs => do
      let v ← p x
      let vs ← parseList p xs
      .ok (v :: vs)

/-- Deserialise a JSON array elementwise. -/
def parseArr {α : Type} (p : Json → Except String α) :
    Json → Except String (List α)
  | .arr xs => parseList p xs
  | _ => .error "expected array"

/-- Deserialise `node::Spec`. -/
def parseSpec (j : Json) : Except String Spec := do
  let name ← reqField j "name" >>= parseString
  let version ← parseOpt parseString (getField j "version")
  .ok { name := name, version := version }

/-- Deserialise `node::Sorting`. -/
def parseSorting (j : Json) : Except String Sorting := do
  let key ← reqField j "key" >>= parseString
  let direction ← reqField j "direction" >>= parseInt
  .ok { key := key, direction := direction }

/-- Deserialise `node::Management` (`rename_all = "lowercase"`). -/
def parseManagement : Json → Except String Management
  | .str "external" => .ok .external
  | .str "immutable" => .ok .immutable
  | .str "locked" => .ok .locked
  | .str "writable" => .ok .writable
  | _ => .error "unknown management"

/-- Deserialise `node::Asset`. -/
def parseAsset (j : Json) : Except String Asset := do
  let du ← reqField j "data_uri" >>= parseString
  let dir ← reqField j "is_directory" >>= parseBool
  let par ← parseOpt parseString (getField j "parameter")
  let num ← parseOpt parseInt (getField j "num")
  let id ← parseOpt parseInt (getField j "id")
  .ok { data_uri := du, is_directory := dir, parameter := par, num := num,
        id := id }

/-- Deserialise `node::DataSource<S>` given a structure deserialiser. -/
def parseDataSource {S : Type} (ps : Json → Except String S) (j : Json) :
    Except String (DataSource S) := do
  let st ← reqField j "structure" >>= ps
  let id ← parseOpt parseNat (getField j "id")
  let mt ← parseOpt parseString (getField j "mimetype")
  let params ← reqField j "parameters" >>= parseObjValue
  let assets ← reqField j "assets" >>= parseArr parseAsset
  let mg ← reqField j "management" >>= parseManagement
  .ok { structure' := st, id := id, mimetype := mt, parameters := params,
        assets := assets, management := mg }

/-- Deserialise `node::Attributes<Meta, S>` given the metadata and
structure deserialisers. -/
def parseAttributes {Meta S : Type} (pm : Json → Except String Meta)
    (ps : Json → Except String S) (j : Json) :
    Except String (Attributes Meta S) := do
  let anc ← reqField j "ancestors" >>= parseArr parseString
  let specs ← reqField j "specs" >>= parseArr parseSpec
  let md ← reqField j "metadata" >>= pm
  let st ← reqField j "structure" >>= ps
  let ab ← reqField j "access_blob"
  let sorting ← parseOpt (parseArr parseSorting) (getField j "sorting")
  let ds ← parseOpt (parseArr (parseDataSource ps)) (getField j "data_sources")
  .ok { ancestors := anc, specs := specs, metadata := md, structure' := st,
        access_blob := ab, sorting := sorting, data_sources := ds }

/-- Deserialise `TableStructure`.  Modelled from the spec: `table.rs` is
not under `src/`; only the `columns` field is known from usage. -/
def parseTableStructure (j : Json) : Except String TableStructure := do
  let cols ← reqField j "columns" >>= parseArr parseString
  .ok { columns := cols }

/-- Deserialise `node::NodeAttributes`: internally tagged on
`structure_family` (`rename_all = "lowercase"`), so the tag is read from
the same object as the variant's fields; exactly the three known tags are
accepted and anything else is a parse error.  (The per-variant metadata
and structure deserialisers for container/array payloads accept any JSON;
those types' files are not under `src/` — modelled from the spec.) -/
def parseNodeAttributes (j : Json) : Except String NodeAttributes :=
  match getField j "structure_family" with
  | some (.str s) =>
      if s = "container" then
        (parseAttributes parseAny parseAny j).map .container
      else if s = "array" then
        (parseAttributes parseObjValue parseAny j).map .array
      else if s = "table" then
        (parseAttributes parseObjValue parseTableStructure j).map .table
      else .error ("unknown variant " ++ s)
  | some _ => .error "structure_family must be a string"
  | none => .error "missing structure_family"

/-- Deserialise `node::Links` (field `self_field` renamed from `self`). -/
def parseLinks (j : Json) : Except String Links := do
  let sf ← reqField j "self" >>= parseString
  let doc ← parseOpt parseString (getField j "documentation")
  let first ← parseOpt parseString (getField j "first")
  let last ← parseOpt parseString (getField j "last")
  let next ← parseOpt parseString (getField j "next")
  let prev ← parseOpt parseString (getField j "prev")
  let search ← parseOpt parseString (getField j "search")
  let full ← parseOpt parseString (getField j "full")
  let block ← parseOpt parseString (getField j "block")
  let partition ← parseOpt parseString (getField j "partition")
  .ok { self_field := sf, documentation := doc, first := first, last := last,
        next := next, prev := prev, search := search, full := full,
        block := block, partition := partition }

/-- Deserialise `node::Data`. -/
def parseData (j : Json) : Except String Data := do
  let id ← reqField j "id" >>= parseString
  let attributes ← reqField j "attributes" >>= parseNodeAttributes
  let links ← reqField j "links" >>= parseLinks
  let meta ← reqField j "meta"
  .ok { id := id, attributes := attributes, links := links, meta := meta }

/-- Deserialise `node::DataOption`: serde `untagged` tries `Data` first
and falls back to `Error(Value)`, which accepts any JSON — so entry
deserialisation never fails. -/
def parseDataOption (j : Json) : Except String DataOption :=
  match parseData j with
  | .ok d => .ok (.data d)
  | .error _ => .ok (.error j)

/-- Deserialise `node::Response<D>` given the payload deserialiser. -/
def parseResponse {D : Type} (pd : Json → Except String D) (j : Json) :
    Except String (Response D) := do
  let data ← reqField j "data" >>= pd
  let err ← reqField j "error"
  let links ← parseOpt parseLinks (getField j "links")
  let meta ← reqField j "meta"
  .ok { data := data, error := err, links := links, meta := meta }

/-- Deserialise `node::Root` (a collection response). -/
def parseRoot : Json → Except String Root :=
  parseResponse (parseArr parseDataOption)

/-- Deserialise `node::Metadata` (a single-node response). -/
def parseMetadata : Json → Except String Metadata :=
  parseResponse parseData

end node

/-- A concrete attribute object carrying an unknown discriminator. -/
def badAttrsJson : Json := .obj [("structure_family", .str "sparse")]

/-- A concrete node object whose attributes carry an unknown
discriminator. -/
def badNodeJson : Json :=
  .obj [("id", .str "x"), ("attributes", badAttrsJson), ("links", .null),
        ("meta", .null)]

/-- A concrete collection response holding only the bad node. -/
def badColJson : Json :=
  .obj [("data", .arr [badNodeJson]), ("error", .null), ("links", .null),
        ("meta", .null)]

/-- The parsed form of `badColJson`: the bad node degrades to an `Error`
entry. -/
def badColRoot : node.Root :=
  { data := [.error badNodeJson], error := .null, links := none, meta := .null }

/-- A concrete single-node response holding the bad node. -/
def badMetaJson : Json :=
  .obj [("data", badNodeJson), ("error", .null), ("links", .null),
        ("meta", .null)]

/-- A concrete body decoder producing `badMetaJson`. -/
def decodeBadMeta : String → Except String Json := fun _ => .ok badMetaJson

/-! ## Theorems -/

/-- Iterating entries with `into_data` keeps exactly the parsed nodes in
order. -/
theorem filterMap_into_data_eq (l : List node.DataOption) :
    l.filterMap node.DataOption.into_data = specWellFormed l := by
  induction l with
  | nil => rfl
  | cons hd tl ih =>
      cases hd with
      | data d => simp [List.filterMap, node.DataOption.into_data, specWellFormed, ih]
      | error j => simp [List.filterMap, node.DataOption.into_data, specWellFormed, ih]

/-- Iterating entries with `as_data` keeps exactly the parsed nodes in
order. -/
theorem filterMap_as_data_eq (l : List node.DataOption) :
    l.filterMap node.DataOption.as_data = specWellFormed l := by
  induction l with
  | nil => rfl
  | cons hd tl ih =>
      cases hd with
      | data d => simp [List.filterMap, node.DataOption.as_data, specWellFormed, ih]
      | error j => simp [List.filterMap, node.DataOption.as_data, specWellFormed, ih]

/-- C1: for every collection response whose data list mixes entries that
parsed as a node and entries that did not, both `Root::data` and
`Root::into_data` yield exactly the well-formed nodes, in their original
list order, and no error is produced for the malformed entries (the
iteration is total and error-free by construction). -/
theorem c1_collection_drops_malformed (r : node.Root)
    (_hgood : ∃ d ∈ node.Response.data r, (node.DataOption.as_data d).isSome)
    (_hbad : ∃ d ∈ node.Response.data r, (node.DataOption.as_data d).isNone) :
    r.into_data = specWellFormed (node.Response.data r) ∧
    r.data' = specWellFormed (node.Response.data r) :=
  ⟨filterMap_into_data_eq _, filterMap_as_data_eq _⟩

/-- Witness for C1 at a concrete mixed collection. -/
theorem c1_witness :
    exampleMixed.into_data = [exampleNode] ∧ exampleMixed.data' = [exampleNode] :=
  c1_collection_drops_malformed exampleMixed
    ⟨.data exampleNode, by simp [exampleMixed], rfl⟩
    ⟨.error (.str "junk"), by simp [exampleMixed], rfl⟩

/-- C2: response classification in `TiledClient::request` is by status
code and exclusive: 400-499 yields `TiledRequest(status, body)`, 500-599
yields `TiledInternal(status, body)`, any other status parses the body as
JSON and a parse failure yields `InvalidResponse(parse error, raw body)`;
a 404 never produces an `InvalidResponse`, and a 200 whose body fails to
parse never produces a `TiledRequest`. -/
theorem c2_status_classification {α : Type} (parse : String → Except String α)
    (status : Nat) (body : String) :
    (400 ≤ status → status < 500 →
      requestClassify parse status body = .error (.tiledRequest status body)) ∧
    (500 ≤ status → status < 600 →
      requestClassify parse status body = .error (.tiledInternal status body)) ∧
    (status < 400 ∨ 600 ≤ status →
      requestClassify parse status body =
        match parse body with
        | .ok v => .ok v
        | .error e => .error (.invalidResponse e body)) ∧
    (∀ e b, requestClassify parse 404 body ≠ .error (.invalidResponse e b)) ∧
    (∀ e, parse body = .error e →
      requestClassify parse 200 body = .error (.invalidResponse e body) ∧
      ∀ s b, requestClassify parse 200 body ≠ .error (.tiledRequest s b)) := by
  refine ⟨?_, ?_, ?_, ?_, ?_⟩
  · intro h1 h2
    rw [requestClassify, if_pos ⟨h1, h2⟩]
  · intro h1 h2
    rw [requestClassify, if_neg (by omega), if_pos ⟨h1, h2⟩]
  · intro h
    rw [requestClassify, if_neg (by omega), if_neg (by omega)]
  · intro e b
    rw [requestClassify, if_pos (by omega)]
    simp
  · intro e he
    rw [requestClassify, if_neg (by omega), if_neg (by omega), he]
    simp

/-- Witness for C2 at concrete statuses 404 and 200 with a failing body
parser. -/
theorem c2_witness :
    requestClassify badParse 404 "nf" = .error (.tiledRequest 404 "nf") ∧
    requestClassify badParse 200 "x" = .error (.invalidResponse "bad" "x") :=
  ⟨(c2_status_classification badParse 404 "nf").1 (by omega) (by omega),
   ((c2_status_classification badParse 200 "x").2.2.2.2 "bad" rfl).1⟩

/-- The trailing `n` segments of a URL whose path ends in a block of
length `n` are exactly that block. -/
theorem trailingSegments_append (b : String) (xs l : List String) :
    Url.trailingSegments l.length { base := b, pathSegments := xs ++ l } = l := by
  unfold Url.trailingSegments
  simp only [List.reverse_append]
  rw [show l.length = l.reverse.length by simp, List.take_left, List.reverse_reverse]

/-- C4: `Asset::download` returns no URL when the asset has no id; when
the id is `some v` it returns a URL built locally from the configured
public base address whose trailing path segments are exactly the run id,
stream id, dataset id and `v`, in that order. -/
theorem c4_asset_download (root : Url) (a : Asset) :
    (a.asset.id = none → a.download root = none) ∧
    (∀ v, a.asset.id = some v →
      ∃ u, a.download root = some u ∧
        u.pathSegments = root.pathSegments ++
          ["asset", a.data.run.data.id, a.data.stream, a.data.id, toString v] ∧
        u.trailingSegments 4 =
          [a.data.run.data.id, a.data.stream, a.data.id, toString v]) := by
  constructor
  · intro h
    simp [Asset.download, h]
  · intro v h
    refine ⟨{ base := root.base,
              pathSegments := root.pathSegments ++
                ["asset", a.data.run.data.id, a.data.stream, a.data.id, toString v] },
            ?_, rfl, ?_⟩
    · simp [Asset.download, h, Url.push]
    · have heq : root.pathSegments ++
          ["asset", a.data.run.data.id, a.data.stream, a.data.id, toString v] =
          (root.pathSegments ++ ["asset"]) ++
          [a.data.run.data.id, a.data.stream, a.data.id, toString v] := by simp
      rw [show (4 : Nat) =
            [a.data.run.data.id, a.data.stream, a.data.id, toString v].length from rfl]
      rw [heq]
      exact trailingSegments_append root.base _ _

/-- Witness for C4 at a concrete asset with id 7 and a concrete asset
without an id. -/
theorem c4_witness :
    (assetNone.download rootUrl = none) ∧
    (∃ u, asset7.download rootUrl = some u ∧
      u.pathSegments = rootUrl.pathSegments ++ ["asset", "n1", "s1", "d1", "7"] ∧
      u.trailingSegments 4 = ["n1", "s1", "d1", "7"]) :=
  ⟨(c4_asset_download rootUrl assetNone).1 rfl,
   (c4_asset_download rootUrl asset7).2 7 rfl⟩

/-- C6: `TableData::inner_data` issues exactly one full-table fetch, for
the path obtained by `/`-joining the attribute block's ancestors followed
by the dataset's own id, with the given optional column projection, and
returns the remote result unchanged (so any remote failure propagates to
the caller). -/
theorem c6_table_data_path (svc : TableService) (auth : Option AuthHeader)
    (td : TableData) (columns : Option (List String)) :
    (td.inner_data svc auth columns =
      (svc (table_fullReq (String.intercalate "/" (td.attrs.ancestors ++ [td.id]))
          columns (auth.map AuthHeader.as_header_map)),
       [table_fullReq (String.intercalate "/" (td.attrs.ancestors ++ [td.id]))
          columns (auth.map AuthHeader.as_header_map)])) ∧
    (∀ e, svc (table_fullReq (String.intercalate "/" (td.attrs.ancestors ++ [td.id]))
          columns (auth.map AuthHeader.as_header_map)) = .error e →
      (td.inner_data svc auth columns).1 = .error e) := by
  refine ⟨rfl, ?_⟩
  intro e he
  simp [TableData.inner_data, he]

/-- Witness for C6: a `TableData` with ancestors `["a", "b"]` and id `c`
fetches path `a/b/c`, and a remote failure propagates unchanged. -/
theorem c6_witness :
    exampleTD.inner_data svcTableErr none none =
      (.error (.tiledInternal 500 "boom"), [table_fullReq "a/b/c" none none]) ∧
    (exampleTD.inner_data svcTableErr none none).1 =
      .error (.tiledInternal 500 "boom") :=
  ⟨(c6_table_data_path svcTableErr none exampleTD none).1,
   (c6_table_data_path svcTableErr none exampleTD none).2 _ rfl⟩

/-- C9: every request built by `TiledClient::table_full` carries an
`accept: application/json` header, and when a column projection is given
the query string carries the `column` parameter exactly once per requested
column, in the given order (and no query at all otherwise). -/
theorem c9_table_full_request (path : String) (columns : List String)
    (headers : Option HeaderMap) :
    (∀ cols : Option (List String),
      ("accept", "application/json") ∈ (table_fullReq path cols headers).headerEntries) ∧
    (table_fullReq path (some columns) headers).query =
      some (columns.map (fun col => ("column", col))) ∧
    (table_fullReq path none headers).query = none := by
  refine ⟨?_, rfl, rfl⟩
  intro cols
  simp [table_fullReq, Request.headerEntries, headerInsert]

/-- C10: the session-to-runs search sends the equality-filter value as the
session name wrapped in literal double quotes, which is never the bare
name itself. -/
theorem c10_runs_query_quotes_name (svc : SearchService) (auth : Option AuthHeader)
    (s : InstrumentSession) :
    (s.runs svc auth).2 = [searchReq "" (auth.map AuthHeader.as_header_map)
      [("filter[eq][condition][key]", "start.instrument_session"),
       ("filter[eq][condition][value]", "\"" ++ s.name ++ "\""),
       ("include_data_sources", "true")]] ∧
    ("\"" ++ s.name ++ "\"") ≠ s.name := by
  constructor
  · rcases hsvc : svc (searchReq "" (Option.map AuthHeader.as_header_map auth)
        [("filter[eq][condition][key]", "start.instrument_session"),
         ("filter[eq][condition][value]", "\"" ++ s.name ++ "\""),
         ("include_data_sources", "true")]) with e | root <;>
      simp [InstrumentSession.runs, hsvc]
  · intro hcontra
    have hlen := congrArg String.length hcontra
    rw [String.length_append, String.length_append] at hlen
    have h1 : ("\"" : String).length = 1 := rfl
    omega

/-- When every per-stream search succeeds, the stream loop returns the
concatenation, across streams in order, of each stream's classified
datasets, and issues exactly one request per stream. -/
theorem streamLoop_ok (svc : SearchService) (headers : Option HeaderMap)
    (run : Run) (f : node.Data → node.Root) :
    ∀ streams : List node.Data,
      (∀ s ∈ streams, svc (searchReq (run.data.id ++ "/" ++ s.id) headers
          [("include_data_sources", "true")]) = .ok (f s)) →
      streamLoop svc headers run streams =
        (.ok ((streams.map (fun s =>
            (f s).into_data.filterMap (classifyDataset run s.id))).flatten),
         streams.map (fun s => searchReq (run.data.id ++ "/" ++ s.id) headers
            [("include_data_sources", "true")])) := by
  intro streams h
  induction streams with
  | nil => rfl
  | cons s rest ih =>
      have hs := h s (List.mem_cons_self _ _)
      rw [streamLoop, hs, ih (fun s' hs' => h s' (List.mem_cons_of_mem _ hs'))]
      simp [Except.map]

/-- When the run-level search and every per-stream search succeed,
`Run::data` returns the concatenation across streams of the classified
datasets. -/
theorem runData_ok (svc : SearchService) (auth : Option AuthHeader)
    (run : Run) (root : node.Root) (f : node.Data → node.Root)
    (h1 : svc (searchReq run.data.id (auth.map AuthHeader.as_header_map)
        [("include_data_sources", "true")]) = .ok root)
    (h2 : ∀ s ∈ root.data', svc (searchReq (run.data.id ++ "/" ++ s.id)
        (auth.map AuthHeader.as_header_map) [("include_data_sources", "true")])
        = .ok (f s)) :
    (run.data' svc auth).1 =
      .ok ((root.data'.map (fun s =>
        (f s).into_data.filterMap (classifyDataset run s.id))).flatten) := by
  rw [Run.data', h1]
  simp only [streamLoop_ok svc (auth.map AuthHeader.as_header_map) run f root.data' h2]

/-- Every request issued by the stream loop carries exactly the header
map it was given. -/
theorem streamLoop_headers (svc : SearchService) (headers : Option HeaderMap)
    (run : Run) :
    ∀ (streams : List node.Data) (req : Request),
      req ∈ (streamLoop svc headers run streams).2 → req.headers = headers := by
  intro streams
  induction streams with
  | nil => intro req h; simp [streamLoop] at h
  | cons s rest ih =>
      intro req h
      rw [streamLoop] at h
      rcases hsvc : svc (searchReq (run.data.id ++ "/" ++ s.id) headers
          [("include_data_sources", "true")]) with e | sd
      · rw [hsvc] at h
        obtain rfl := List.mem_singleton.mp h
        rfl
      · rw [hsvc] at h
        rcases List.mem_cons.mp h with h1 | h2
        · subst h1; rfl
        · exact ih req h2

/-- Every request issued by `Run::data` carries exactly the header map
derived from the credential. -/
theorem runData_headers (svc : SearchService) (auth : Option AuthHeader)
    (run : Run) :
    ∀ req ∈ (run.data' svc auth).2,
      req.headers = auth.map AuthHeader.as_header_map := by
  intro req h
  rw [Run.data'] at h
  rcases hsvc : svc (searchReq run.data.id (auth.map AuthHeader.as_header_map)
      [("include_data_sources", "true")]) with e | rd
  · rw [hsvc] at h
    obtain rfl := List.mem_singleton.mp h
    rfl
  · rw [hsvc] at h
    rcases List.mem_cons.mp h with h1 | h2
    · subst h1; rfl
    · exact streamLoop_headers svc _ run _ req h2

/-- Every request issued by `InstrumentSession::runs` carries exactly the
header map derived from the credential. -/
theorem runs_headers (svc : SearchService) (auth : Option AuthHeader)
    (s : InstrumentSession) :
    ∀ req ∈ (s.runs svc auth).2,
      req.headers = auth.map AuthHeader.as_header_map := by
  intro req h
  rw [InstrumentSession.runs] at h
  rcases hsvc : svc (searchReq "" (auth.map AuthHeader.as_header_map)
      [("filter[eq][condition][key]", "start.instrument_session"),
       ("filter[eq][condition][value]", "\"" ++ s.name ++ "\""),
       ("include_data_sources", "true")]) with e | root <;>
    rw [hsvc] at h <;> (obtain rfl := List.mem_singleton.mp h; rfl)

/-- C7: under successful fetches, `Run::data` classifies each dataset node
by its `NodeAttributes` variant (`Array` to `ArrayData`, `Table` to
`TableData`, `Container` discarded) and returns the concatenation, across
streams in discovery order, of each stream's classified datasets in
within-stream order. -/
theorem c7_run_data_classification (svc : SearchService) (auth : Option AuthHeader)
    (run : Run) (root : node.Root) (f : node.Data → node.Root)
    (h1 : svc (searchReq run.data.id (auth.map AuthHeader.as_header_map)
        [("include_data_sources", "true")]) = .ok root)
    (h2 : ∀ s ∈ root.data', svc (searchReq (run.data.id ++ "/" ++ s.id)
        (auth.map AuthHeader.as_header_map) [("include_data_sources", "true")])
        = .ok (f s)) :
    (run.data' svc auth).1 =
      .ok ((root.data'.map (fun s =>
        (f s).into_data.filterMap (classifyDataset run s.id))).flatten) :=
  runData_ok svc auth run root f h1 h2

/-- Witness for C7: a concrete run whose single stream holds an array
node, a table node, a container node and a malformed entry resolves to
exactly the array dataset followed by the table dataset. -/
theorem c7_witness :
    (exampleRun.data' exampleSvc none).1 =
      .ok [RunData.array exampleAD, RunData.internal exampleTD2] := by
  have h := c7_run_data_classification exampleSvc none exampleRun rootStreams
    (fun _ => rootDatasets) rfl
    (by
      intro s hs
      rw [show rootStreams.data' = [streamNode] from rfl] at hs
      obtain rfl := List.mem_singleton.mp hs
      rfl)
  exact h

/-- C5 counterexample: the claim that every `TableData` retains the
Run/stream/dataset-id triple is false — two runs with different run ids
and different stream ids resolve to the very same `TableData` value, so a
`TableData` cannot determine the run or stream it came from. -/
theorem c5_counterexample :
    (runA.data' svcA none).1 = .ok [RunData.internal exampleTD2] ∧
    (runB.data' svcB none).1 = .ok [RunData.internal exampleTD2] ∧
    runA.data.id ≠ runB.data.id ∧ streamNodeA.id ≠ streamNodeB.id :=
  ⟨rfl, rfl, by decide, by decide⟩

/-- C5 (amended): every `ArrayData` produced by resolving a run retains
the run, the originating stream's id and its dataset node's id; a
`TableData` is determined by its dataset id and attribute block alone (it
retains no run or stream reference). -/
theorem c5_data_retention (svc : SearchService) (auth : Option AuthHeader)
    (run : Run) (root : node.Root) (f : node.Data → node.Root)
    (h1 : svc (searchReq run.data.id (auth.map AuthHeader.as_header_map)
        [("include_data_sources", "true")]) = .ok root)
    (h2 : ∀ s ∈ root.data', svc (searchReq (run.data.id ++ "/" ++ s.id)
        (auth.map AuthHeader.as_header_map) [("include_data_sources", "true")])
        = .ok (f s)) :
    (∀ L, (run.data' svc auth).1 = .ok L →
      ∀ a : ArrayData, RunData.array a ∈ L →
        a.run = run ∧ ∃ s ∈ root.data', a.stream = s.id ∧
          ∃ d ∈ (f s).into_data, a.id = d.id) ∧
    (∀ t1 t2 : TableData, t1.id = t2.id → t1.attrs = t2.attrs → t1 = t2) := by
  constructor
  · intro L hL a ha
    have hchar := runData_ok svc auth run root f h1 h2
    rw [hL] at hchar
    have hLeq := Except.ok.inj hchar
    subst hLeq
    rw [List.mem_flatten] at ha
    obtain ⟨l, hl, hal⟩ := ha
    rw [List.mem_map] at hl
    obtain ⟨s, hs, rfl⟩ := hl
    rw [List.mem_filterMap] at hal
    obtain ⟨d, hd, hclass⟩ := hal
    cases hattr : d.attributes with
    | array attrs =>
        rw [classifyDataset, hattr] at hclass
        injection hclass with hclass
        injection hclass with hclass
        subst hclass
        exact ⟨rfl, s, hs, rfl, d, hd, rfl⟩
    | table attrs =>
        rw [classifyDataset, hattr] at hclass
        exact absurd hclass (by simp)
    | container attrs =>
        rw [classifyDataset, hattr] at hclass
        exact absurd hclass (by simp)
  · intro t1 t2 hid hattrs
    cases t1
    cases t2
    cases hid
    cases hattrs
    rfl

/-- Witness for C5 (amended) at the concrete run fixture: the produced
`ArrayData` retains the run, a discovered stream id and a discovered
dataset id. -/
theorem c5_witness :
    exampleAD.run = exampleRun ∧ ∃ s ∈ rootStreams.data', exampleAD.stream = s.id ∧
      ∃ d ∈ rootDatasets.into_data, exampleAD.id = d.id :=
  (c5_data_retention exampleSvc none exampleRun rootStreams
      (fun _ => rootDatasets) rfl
      (by
        intro s hs
        rw [show rootStreams.data' = [streamNode] from rfl] at hs
        obtain rfl := List.mem_singleton.mp hs
        rfl)).1
    [RunData.array exampleAD, RunData.internal exampleTD2] rfl exampleAD
    (List.Mem.head _)

/-- C8: every remote call issued while resolving a client request that
supplied a credential carries that credential as a header
(session-to-runs search, run resolution searches, and the table-data
fetch), and when no credential was supplied no such header is attached to
any of those calls. -/
theorem c8_auth_forwarding (svc : SearchService) (svcT : TableService)
    (a : AuthHeader) (s : InstrumentSession) (run : Run) (td : TableData)
    (columns : Option (List String)) :
    (∀ req ∈ (s.runs svc (some a)).2, req.hasAuth a) ∧
    (∀ req ∈ (run.data' svc (some a)).2, req.hasAuth a) ∧
    (∀ req ∈ (td.inner_data svcT (some a) columns).2, req.hasAuth a) ∧
    (∀ req ∈ (s.runs svc none).2, req.noAuth) ∧
    (∀ req ∈ (run.data' svc none).2, req.noAuth) ∧
    (∀ req ∈ (td.inner_data svcT none columns).2, req.noAuth) := by
  refine ⟨?_, ?_, ?_, ?_, ?_, ?_⟩
  · intro req h
    have hh := runs_headers svc (some a) s req h
    simp [Request.hasAuth, Request.headerEntries, hh, AuthHeader.as_header_map]
  · intro req h
    have hh := runData_headers svc (some a) run req h
    simp [Request.hasAuth, Request.headerEntries, hh, AuthHeader.as_header_map]
  · intro req h
    rw [TableData.inner_data] at h
    obtain rfl := List.mem_singleton.mp h
    simp [Request.hasAuth, Request.headerEntries, table_fullReq, headerInsert,
      AuthHeader.as_header_map, List.mem_filter]
  · intro req h
    have hh := runs_headers svc none s req h
    simp [Request.noAuth, Request.headerEntries, hh]
  · intro req h
    have hh := runData_headers svc none run req h
    simp [Request.noAuth, Request.headerEntries, hh]
  · intro req h
    rw [TableData.inner_data] at h
    obtain rfl := List.mem_singleton.mp h
    simp [Request.noAuth, Request.headerEntries, table_fullReq, headerInsert]

/-- Witness for C8: concrete credential `tok` appears on the concrete
session search request, and the credential-free table fetch request
carries no credential header. -/
theorem c8_witness :
    Request.hasAuth ⟨"tok"⟩ (searchReq "" (some [("authorization", "tok")])
      [("filter[eq][condition][key]", "start.instrument_session"),
       ("filter[eq][condition][value]", "\"" ++ "sess" ++ "\""),
       ("include_data_sources", "true")]) ∧
    Request.noAuth (table_fullReq "a/b/c" none none) :=
  ⟨(c8_auth_forwarding exampleSvc svcTableErr ⟨"tok"⟩ ⟨"sess"⟩ exampleRun
      exampleTD none).1 _ (List.Mem.head _),
   (c8_auth_forwarding exampleSvc svcTableErr ⟨"tok"⟩ ⟨"sess"⟩ exampleRun
      exampleTD none).2.2.2.2.2 _ (List.Mem.head _)⟩

/-- Binding a failed `Except` computation fails with the same error. -/
theorem except_bind_error {ε α β : Type} (e : ε) (f : α → Except ε β) :
    (Except.error e >>= f) = .error e := rfl

/-- Binding a successful `Except` computation applies the continuation. -/
theorem except_bind_ok {ε α β : Type} (a : α) (f : α → Except ε β) :
    (Except.ok a >>= f) = f a := rfl

/-- C3 counterexample: the claim as stated is false for collection
entries — a collection response containing a node with unknown
discriminator `sparse` parses successfully (no `InvalidResponseError`):
the node degrades to an `Error` entry which iteration silently drops. -/
theorem c3_counterexample :
    node.getField badAttrsJson "structure_family" = some (.str "sparse") ∧
    ("sparse" ≠ "container" ∧ "sparse" ≠ "array" ∧ "sparse" ≠ "table") ∧
    node.parseRoot badColJson = .ok badColRoot ∧
    badColRoot.into_data = [] :=
  ⟨rfl, ⟨by decide, by decide, by decide⟩, rfl, rfl⟩

/-- C3 (amended): a node whose `structure_family` discriminator is not
one of `container`, `array`, `table` fails to parse as `NodeAttributes`
and as a `Data` node, and a single-node (metadata) response carrying it
is surfaced by the request layer as `InvalidResponseError`; inside a
collection response, however, such an entry parses as `DataOption::Error`
(and is then silently dropped by iteration) rather than failing. -/
theorem c3_unknown_discriminator (j : Json) (s : String)
    (htag : node.getField j "structure_family" = some (.str s))
    (h1 : s ≠ "container") (h2 : s ≠ "array") (h3 : s ≠ "table") :
    (∃ e, node.parseNodeAttributes j = .error e) ∧
    (∀ o, node.getField o "attributes" = some j →
      ∃ e, node.parseData o = .error e) ∧
    (∀ o, node.getField o "attributes" = some j →
      node.parseDataOption o = .ok (.error o)) ∧
    (∀ (decode : String → Except String Json) (body : String) (o dj : Json),
      decode body = .ok o → node.getField o "data" = some dj →
      node.getField dj "attributes" = some j →
      ∃ e, requestClassify (fun b => decode b >>= node.parseMetadata) 200 body =
        .error (.invalidResponse e body)) := by
  have hna : ∃ e, node.parseNodeAttributes j = .error e := by
    simp only [node.parseNodeAttributes, htag]
    rw [if_neg h1, if_neg h2, if_neg h3]
    exact ⟨_, rfl⟩
  obtain ⟨e, he⟩ := hna
  have hpd : ∀ o, node.getField o "attributes" = some j →
      ∃ e', node.parseData o = .error e' := by
    intro o ho
    have hra : node.reqField o "attributes" = .ok j := by
      rw [node.reqField, ho]
    rw [node.parseData]
    rcases hid : (node.reqField o "id" >>= node.parseString) with e0 | idv
    · exact ⟨e0, by rw [except_bind_error]⟩
    · refine ⟨e, ?_⟩
      rw [except_bind_ok, hra, except_bind_ok, he, except_bind_error]
  refine ⟨⟨e, he⟩, hpd, ?_, ?_⟩
  · intro o ho
    obtain ⟨e', he'⟩ := hpd o ho
    rw [node.parseDataOption, he']
  · intro decode body o dj hdec hdata hattr
    obtain ⟨ed, hed⟩ := hpd dj hattr
    have hrd : node.reqField o "data" = .ok dj := by
      rw [node.reqField, hdata]
    have hm : node.parseMetadata o = .error ed := by
      show node.parseResponse node.parseData o = .error ed
      rw [node.parseResponse, hrd, except_bind_ok, hed, except_bind_error]
    refine ⟨ed, ?_⟩
    rw [requestClassify, if_neg (by omega), if_neg (by omega)]
    simp only [hdec, except_bind_ok, hm]

/-- Witness for C3 (amended) at the concrete unknown discriminator
`sparse`. -/
theorem c3_witness :
    (∃ e, node.parseNodeAttributes badAttrsJson = .error e) ∧
    node.parseDataOption badNodeJson = .ok (.error badNodeJson) ∧
    (∃ e, requestClassify (fun b => decodeBadMeta b >>= node.parseMetadata)
      200 "body" = .error (.invalidResponse e "body")) := by
  have h := c3_unknown_discriminator badAttrsJson "sparse" rfl
    (by decide) (by decide) (by decide)
  exact ⟨h.1, h.2.2.1 badNodeJson rfl,
    h.2.2.2 decodeBadMeta "body" badMetaJson badNodeJson rfl rfl rfl⟩

/-- Witness for C10 at the concrete session name `sess`. -/
theorem c10_witness :
    ((⟨"sess"⟩ : InstrumentSession).runs exampleSvc none).2 =
      [searchReq "" none
        [("filter[eq][condition][key]", "start.instrument_session"),
         ("filter[eq][condition][value]", "\"" ++ "sess" ++ "\""),
         ("include_data_sources", "true")]] ∧
    ("\"" ++ "sess" ++ "\"") ≠ "sess" :=
  c10_runs_query_quotes_name exampleSvc none ⟨"sess"⟩
